import Mathlib

/-!
Verification development for the multi-agent workflow repository.

Shallow embedding of two components, translated from the source:
 - `src/parallel_workflow.py`: routing parse, parallel fan-out dispatch,
   synthesis prompt construction (`parseRoutingResponse`, `invokeAgent`,
   `runParallelWorkflow`, `buildSynthesisPrompt`).
 - `src/tools/raw_mcp_stdio.py` (and its character-identical twin
   `src/tools/raw_mcp_sse.py`): the session bridge worker loop
   (`workerTrace`), the bridged call (`callToolBridged`) and `connect`
   failure handling (`connectModel`).

Python strings are modelled as Lean `String` and `List Char`; Python
exceptions as `Except` values carrying the textual representation used by
the source when it formats them.
-/

namespace MAW

/-! Python string helpers used by `_parse_routing_response`. -/

/-- Characters removed by the Python `str.strip()` method (ASCII fragment). -/
def pyWhitespace (c : Char) : Bool :=
  c = ' ' || c = '\t' || c = '\n' || c = '\r' || c = '\x0b' || c = '\x0c'

/-- Python `s.strip()`: drop leading and trailing whitespace. -/
def pyStrip (l : List Char) : List Char :=
  ((l.dropWhile pyWhitespace).reverse.dropWhile pyWhitespace).reverse

/-- Python `s.replace(" ", "")`: delete every space character. -/
def removeSpaces (l : List Char) : List Char :=
  l.filter (fun c => c ≠ ' ')

/-- Python `s.split(",")`. On the empty string it returns one empty token. -/
def splitComma : List Char → List (List Char)
  | [] => [[]]
  | c :: rest =>
    match splitComma rest with
    | [] => [[]]
    | t :: ts => if c = ',' then [] :: t :: ts else (c :: t) :: ts

/-- The module constant VALID_AGENT_NAMES of `parallel_workflow.py`. -/
def VALID_AGENT_NAMES : List String := ["SlackAgent", "JiraAgent", "GitHubAgent"]

/-- Translation of `_parse_routing_response` from `parallel_workflow.py`:
strip the text, delete every space, split on commas, strip each token,
drop empty tokens, keep tokens that are valid agent names (a list, so
duplicates survive). -/
def parseRoutingResponse (responseText : String) : List String :=
  let raw := removeSpaces (pyStrip responseText.data)
  let names := ((splitComma raw).map pyStrip).filter (fun n => n ≠ [])
  (names.map (fun l => String.mk l)).filter (fun n => VALID_AGENT_NAMES.contains n)

/-! The agent model and the parallel workflow of `parallel_workflow.py`. -/

/-- One event yielded by `agent.run(...)`. `msgTexts = some ts` models an
event whose `data` is a list whose `Message` items carry the texts `ts`
(a non-list `data` or a non-output event is modelled by `none` or by the
event type). -/
structure RunEvent where
  eventType : String
  msgTexts : Option (List String)
deriving DecidableEq

/-- An agent: its `.name` attribute (the empty string models a falsy name)
and its `run` coroutine, which either returns the event list or raises an
exception with the given textual representation. -/
structure Agent where
  name : String
  run : String → Except String (List RunEvent)

/-- The text-collection loop of `_invoke_agent`: every truthy `Message`
text of every output event, in order. -/
def extractTexts (events : List RunEvent) : List String :=
  events.foldl
    (fun acc e =>
      if e.eventType = "output" then
        match e.msgTexts with
        | some msgs => acc ++ msgs.filter (fun t => t ≠ "")
        | none => acc
      else acc)
    []

/-- The single-text extraction loop used for `routing_text` and
`final_text` in `run_parallel_workflow`: for each output event take its
first truthy message text (the inner `break`), keeping the last such
assignment (the outer loop does not break). -/
def runText (events : List RunEvent) : String :=
  events.foldl
    (fun acc e =>
      if e.eventType = "output" then
        match e.msgTexts with
        | some msgs =>
          match msgs.find? (fun t => t ≠ "") with
          | some t => t
          | none => acc
        | none => acc
      else acc)
    ""

/-- Translation of `_invoke_agent`: run the agent, join the collected
texts with newlines (or "(no response)"), and on any exception return the
formatted error text instead of raising. -/
def invokeAgent (agent : Agent) (task : String) : String × String :=
  let name := if agent.name = "" then "Unknown" else agent.name
  match agent.run task with
  | .ok events =>
    let texts := extractTexts events
    let response := if texts = [] then "(no response)" else String.intercalate "\n" texts
    (name, response)
  | .error e => (name, "(error: " ++ e ++ ")")

/-- Translation of `_build_synthesis_prompt`. -/
def buildSynthesisPrompt (originalTask : String) (agentResults : List (String × String)) : String :=
  let sections :=
    ["ORIGINAL USER REQUEST:\n" ++ originalTask ++ "\n", "AGENT RESULTS:"]
      ++ agentResults.map (fun nr => "\n--- " ++ nr.1 ++ " ---\n" ++ nr.2)
      ++ ["\nPlease synthesize the above results into a single, coherent response for the user."]
  String.intercalate "\n" sections

/-- Observable outcome of one `run_parallel_workflow` dispatch: the
returned text, the list of (agent name, response) results produced by the
fan-out (one entry per started invocation, in selection order), and the
synthesis prompt when the synthesis oracle was called. -/
structure WorkflowOutput where
  text : String
  results : List (String × String)
  synthesisPrompt : Option String
deriving DecidableEq

/-- Translation of `run_parallel_workflow`. The agents dict is an
association list; `asyncio.gather` over the selected invocations is
denoted by the selection-order map (see `gatherFill` for the model of
gather's slot filling under arbitrary completion order). An exception
raised by an oracle `run` propagates as `.error`. -/
def runParallelWorkflow (task : String) (routing synthesis : Agent)
    (agents : List (String × Agent)) : Except String WorkflowOutput :=
  match routing.run task with
  | .error e => .error e
  | .ok routingEvents =>
    let routingText := runText routingEvents
    let selectedNames := parseRoutingResponse routingText
    if selectedNames.isEmpty then
      .ok ⟨"Orchestrator could not determine which agents to invoke for this task.", [], none⟩
    else
      let selectedAgents := selectedNames.filterMap (fun n => agents.lookup n)
      if selectedAgents.isEmpty then
        .ok ⟨"No valid agents available for the selected tasks.", [], none⟩
      else
        let results := selectedAgents.map (fun a => invokeAgent a task)
        let prompt := buildSynthesisPrompt task results
        match synthesis.run prompt with
        | .error e => .error e
        | .ok synthEvents =>
          let finalText := runText synthEvents
          .ok ⟨if finalText = "" then "(synthesis produced no output)" else finalText,
               results, some prompt⟩

/-- Model of `asyncio.gather` slot filling: result slot `j` is written
with invocation `j`'s value at the moment invocation `j` completes; the
`schedule` lists the invocation indices in completion order. -/
def gatherFill (results : List (String × String)) (schedule : List Nat) :
    List (Option (String × String)) :=
  schedule.foldl (fun slots j => slots.set j results[j]?)
    (List.replicate results.length none)

/-- Reading out the gathered slots after all invocations completed. -/
def collectGather (slots : List (Option (String × String))) : List (String × String) :=
  slots.filterMap id

/-- A concrete demonstration agent used in witness instances: it answers
every task with one output event. -/
def demoAgent (nm : String) : Agent :=
  ⟨nm, fun _ => .ok [⟨"output", some ["done by " ++ nm]⟩]⟩

/-- A concrete two-agent registry used in witness instances. -/
def demoRegistry : List (String × Agent) :=
  [("SlackAgent", demoAgent "SlackAgent"), ("JiraAgent", demoAgent "JiraAgent")]

/-! The session bridge of `raw_mcp_stdio.py` / `raw_mcp_sse.py`. -/

/-- A queued tool-call request: tool name plus keyword arguments
(an association list with opaque string values), as placed on
`self._call_queue` together with its result future. -/
structure PendingCall where
  toolName : String
  args : List (String × String)
deriving DecidableEq

/-- One content item of an MCP `CallToolResult`; the `embedded` and
`other` constructors carry the Python `str(content)` representation. -/
inductive MCPContent
  | text (t : String)
  | image (mimeType : String)
  | embedded (s : String)
  | other (s : String)
deriving DecidableEq

/-- Translation of `_parse_tool_result`. -/
def parseToolResult (result : List MCPContent) : String :=
  String.intercalate "\n"
    (result.map fun c =>
      match c with
      | .text t => t
      | .image m => "[image: " ++ m ++ "]"
      | .embedded s => s
      | .other s => s)

/-- The backend session: `session.call_tool(name, arguments)` either
returns a result or raises an exception with the given text. A function,
so one fixed response per request — the fake-session setting of the
spec's testable property. -/
def Session : Type := String → List (String × String) → Except String (List MCPContent)

/-- The body of the worker loop for one dequeued call: run it against the
session; on success the slot gets the parsed text, on an exception the
slot gets the exception (`future.set_result` / `future.set_exception`). -/
inductive SlotState
  | result (text : String)
  | failure (exc : String)
deriving DecidableEq

/-- What the worker loop stores into the future of one dequeued call. -/
def runCall (session : Session) (pc : PendingCall) : SlotState :=
  match session pc.toolName pc.args with
  | .ok r => .result (parseToolResult r)
  | .error e => .failure e

/-- Observable events of the worker loop, indexed by the arrival position
of the call in the queue: the session receiving `call_tool`, and the
call's future being fulfilled. -/
inductive WorkerEvent
  | sessionCall (idx : Nat) (toolName : String)
  | fulfill (idx : Nat) (s : SlotState)
deriving DecidableEq

/-- Translation of the `_process_calls` loop over an indexed queue: at
each loop iteration the stop event is checked first (`stopAt i` is
whether `self._stop_event.is_set()` at iteration `i`); if set the loop
exits, abandoning the remaining queue; otherwise the next call is
dequeued, sent to the session, and its future fulfilled, before the next
iteration begins. -/
def processIndexed (session : Session) (stopAt : Nat → Bool) :
    List (Nat × PendingCall) → List WorkerEvent
  | [] => []
  | (i, pc) :: rest =>
    if stopAt i then []
    else
      WorkerEvent.sessionCall i pc.toolName ::
      WorkerEvent.fulfill i (runCall session pc) ::
      processIndexed session stopAt rest

/-- The worker-loop trace over the queue contents (the interleaving of
all concurrent callers' enqueues): calls paired with arrival indices. -/
def workerTrace (session : Session) (stopAt : Nat → Bool)
    (queue : List PendingCall) : List WorkerEvent :=
  processIndexed session stopAt queue.enum

/-- Serialization checker: scanning the trace with the currently
outstanding session call, a new `sessionCall` is legal only when no call
is outstanding, and a `fulfill` only for the outstanding call. -/
def serializedFrom : Option Nat → List WorkerEvent → Bool
  | _, [] => true
  | none, WorkerEvent.sessionCall i _ :: rest => serializedFrom (some i) rest
  | none, WorkerEvent.fulfill _ _ :: _ => false
  | some _, WorkerEvent.sessionCall _ _ :: _ => false
  | some i, WorkerEvent.fulfill j _ :: rest =>
    if j = i then serializedFrom none rest else false

/-- A trace is serialized when the session never receives a second call
before the previous call's slot has been fulfilled. -/
def serialized (tr : List WorkerEvent) : Bool :=
  serializedFrom none tr

/-- The indices of the calls whose futures the trace fulfills. -/
def fulfilledIdxs (tr : List WorkerEvent) : List Nat :=
  tr.filterMap fun e =>
    match e with
    | .fulfill i _ => some i
    | _ => none

/-- How many calls the worker dequeues before observing the stop signal:
the length of the longest prefix of iterations at which `stopAt` is
false. -/
def dequeuedFrom (stopAt : Nat → Bool) : List (Nat × PendingCall) → Nat
  | [] => 0
  | (i, _) :: rest => if stopAt i then 0 else dequeuedFrom stopAt rest + 1

/-- How many calls of the queue the worker dequeues before exiting. -/
def dequeuedCount (stopAt : Nat → Bool) (queue : List PendingCall) : Nat :=
  dequeuedFrom stopAt queue.enum

/-- Checker that every `fulfill` event carries exactly the value the
session produced for the corresponding queued call (result on success,
the raised exception on failure). -/
def fulfillsMatch (session : Session) (queue : List PendingCall)
    (tr : List WorkerEvent) : Bool :=
  tr.all fun e =>
    match e with
    | .fulfill i s =>
      match queue[i]? with
      | some pc => decide (s = runCall session pc)
      | none => false
    | _ => true

/-- The framework kwargs filtered out by `_call_tool_bridged`. -/
def FRAMEWORK_KWARGS : List String :=
  ["chat_options", "tools", "tool_choice", "session", "thread",
   "conversation_id", "options", "response_format"]

/-- The kwargs filter of `_call_tool_bridged`. -/
def filterKwargs (kwargs : List (String × String)) : List (String × String) :=
  kwargs.filter (fun kv => ¬ FRAMEWORK_KWARGS.contains kv.1)

/-- What a call to `_call_tool_bridged` does before suspending on its
future: either it enqueues a pending call onto the bridge queue, or it
raises a not-connected error. -/
inductive BridgedStep
  | enqueue (pc : PendingCall)
  | raiseNotConnected
deriving DecidableEq

/-- Translation of `_call_tool_bridged`: filter the framework kwargs,
create a future, put the pending call on the queue, and await the
future. The source consults no connection state: `isConnected` is the
value of `self.is_connected` at call time, and the body ignores it. -/
def callToolBridged (isConnected : Bool) (toolName : String)
    (kwargs : List (String × String)) : BridgedStep :=
  BridgedStep.enqueue ⟨toolName, filterKwargs kwargs⟩

/-- Python exceptions relevant to `connect`, carrying their message or,
for `ConnectionError`, a cause; `other` covers every further exception
type by its type name and message. -/
inductive PyExc
  | connectionError (cause : PyExc)
  | runtimeError (msg : String)
  | other (typeName : String) (msg : String)
deriving DecidableEq

/-- Whether an outcome is a raised `ConnectionError`. -/
def raisesConnectionError : Except PyExc Unit → Bool
  | .error (.connectionError _) => true
  | _ => false

/-- How the background worker stood when `connect` resumed after
`self._ready_event.wait()`: either it set `is_connected` and signalled
ready, or it failed with an exception — with its task either already
finished (`failedDone`) or not yet (`failedPending`). -/
inductive WorkerInit
  | ready
  | failedDone (e : PyExc)
  | failedPending (e : PyExc)

/-- Translation of `connect` (lines 75-91 of `raw_mcp_stdio.py`): return
immediately when already connected; otherwise start the worker and wait
for readiness; if not connected afterwards, re-raise the worker task's
exception when its task is done, else raise the fixed `RuntimeError`.
Returns the raised-or-ok outcome together with the resulting
`is_connected` flag. -/
def connectModel (alreadyConnected : Bool) (w : WorkerInit) :
    Except PyExc Unit × Bool :=
  if alreadyConnected then (.ok (), true)
  else
    match w with
    | .ready => (.ok (), true)
    | .failedDone e => (.error e, false)
    | .failedPending _ =>
      (.error (.runtimeError "Failed to connect to MCP server"), false)

/-! Helper lemmas about the worker trace. -/

theorem serializedFrom_processIndexed (session : Session) (stopAt : Nat → Bool) :
    ∀ L : List (Nat × PendingCall),
      serializedFrom none (processIndexed session stopAt L) = true
  | [] => rfl
  | (i, pc) :: rest => by
    by_cases h : stopAt i
    · simp [processIndexed, h, serializedFrom]
    · simp [processIndexed, h, serializedFrom,
        serializedFrom_processIndexed session stopAt rest]

theorem fulfilledIdxs_processIndexed (session : Session) (stopAt : Nat → Bool) :
    ∀ L : List (Nat × PendingCall),
      fulfilledIdxs (processIndexed session stopAt L)
        = (L.map Prod.fst).take (dequeuedFrom stopAt L)
  | [] => rfl
  | (i, pc) :: rest => by
    by_cases h : stopAt i
    · simp [processIndexed, h, dequeuedFrom, fulfilledIdxs]
    · simp only [processIndexed, h, if_neg, ite_false, dequeuedFrom, fulfilledIdxs,
        List.filterMap_cons, List.map_cons, List.take_succ_cons]
      exact congrArg (i :: ·) (fulfilledIdxs_processIndexed session stopAt rest)

theorem dequeuedFrom_le_length (stopAt : Nat → Bool) :
    ∀ L : List (Nat × PendingCall), dequeuedFrom stopAt L ≤ L.length
  | [] => Nat.le_refl 0
  | (i, pc) :: rest => by
    by_cases h : stopAt i
    · simp [dequeuedFrom, h]
    · simpa [dequeuedFrom, h] using dequeuedFrom_le_length stopAt rest

theorem dequeuedFrom_const_false :
    ∀ L : List (Nat × PendingCall), dequeuedFrom (fun _ => false) L = L.length
  | [] => rfl
  | (_, _) :: rest => by
    simp [dequeuedFrom, dequeuedFrom_const_false rest]

theorem fulfillsMatch_processIndexed (session : Session) (stopAt : Nat → Bool)
    (queue : List PendingCall) :
    ∀ L : List (Nat × PendingCall),
      (∀ p ∈ L, queue[p.1]? = some p.2) →
      fulfillsMatch session queue (processIndexed session stopAt L) = true
  | [], _ => rfl
  | (i, pc) :: rest, hinv => by
    have hi : queue[i]? = some pc := hinv (i, pc) (List.mem_cons_self _ _)
    have hrest := fulfillsMatch_processIndexed session stopAt queue rest
      (fun p hp => hinv p (List.mem_cons_of_mem _ hp))
    by_cases h : stopAt i
    · simp [processIndexed, h, fulfillsMatch]
    · simp only [processIndexed, h, ite_false, fulfillsMatch, List.all_cons] at hrest ⊢
      simp [hi, hrest]

theorem fulfilledIdxs_workerTrace (session : Session) (stopAt : Nat → Bool)
    (queue : List PendingCall) :
    fulfilledIdxs (workerTrace session stopAt queue)
      = List.range (dequeuedCount stopAt queue) := by
  rw [workerTrace, fulfilledIdxs_processIndexed, List.enum_map_fst, dequeuedCount,
    List.take_range, Nat.min_eq_left]
  calc dequeuedFrom stopAt queue.enum ≤ queue.enum.length :=
        dequeuedFrom_le_length stopAt queue.enum
    _ = queue.length := List.enum_length

/-- C1: for any connected bridge in steady state (the stop event never
observed set), the single worker strictly serializes the session: for any
queue contents produced by N overlapping callers of the bridged invoke
(the queue is the arbitrary interleaving of their enqueues), the session
never receives a second `call_tool` before the previous call's future was
fulfilled, and exactly N futures are fulfilled — one per accepted call,
each exactly once. -/
theorem C1_worker_serializes_and_fulfills_all (session : Session)
    (queue : List PendingCall) :
    serialized (workerTrace session (fun _ => false) queue) = true ∧
    fulfilledIdxs (workerTrace session (fun _ => false) queue)
      = List.range queue.length := by
  refine ⟨serializedFrom_processIndexed session _ queue.enum, ?_⟩
  rw [fulfilledIdxs_workerTrace, dequeuedCount, dequeuedFrom_const_false,
    List.enum_length]

/-- C4 counterexample: one pending call is accepted onto the queue, but
close() is requested before the worker dequeues it (the stop event is
observed set at the first loop iteration). The worker exits without
fulfilling the accepted call's slot: zero slots are fulfilled although
one call was accepted, so the claim fails as stated. -/
theorem C4_counterexample_stop_abandons_queued_call :
    (fulfilledIdxs (workerTrace (fun _ _ => Except.ok [] : Session)
        (fun _ => true) [⟨"tool", []⟩])).length
      ≠ ([(⟨"tool", []⟩ : PendingCall)]).length := by
  decide

/-- C4 amended: every PendingCall the worker dequeues before observing
the stop signal has its slot fulfilled, exactly once and with precisely
the session's outcome for that call (the parsed result on success, the
raised exception on failure — no exception escapes the loop, whose
translation is total); but only the dequeued prefix is fulfilled, so
calls still queued when close() is requested are abandoned. -/
theorem C4_amended_dequeued_calls_fulfilled (session : Session)
    (stopAt : Nat → Bool) (queue : List PendingCall) :
    fulfilledIdxs (workerTrace session stopAt queue)
      = List.range (dequeuedCount stopAt queue) ∧
    dequeuedCount stopAt queue ≤ queue.length ∧
    fulfillsMatch session queue (workerTrace session stopAt queue) = true := by
  refine ⟨fulfilledIdxs_workerTrace session stopAt queue, ?_, ?_⟩
  · calc dequeuedCount stopAt queue ≤ queue.enum.length :=
          dequeuedFrom_le_length stopAt queue.enum
      _ = queue.length := List.enum_length
  · exact fulfillsMatch_processIndexed session stopAt queue queue.enum
      (fun p hp => List.mem_enum_iff_getElem?.mp hp)

/-- C5 counterexample: the bridged call made while the bridge is not
connected (is_connected = false) enqueues the pending call (with the
framework kwargs filtered) exactly as in the connected case — it does not
raise a not-connected error, so the claim fails as stated. -/
theorem C5_counterexample_no_not_connected_check :
    callToolBridged false "get_issue" [("session", "s"), ("query", "q")]
      = BridgedStep.enqueue ⟨"get_issue", [("query", "q")]⟩ ∧
    callToolBridged false "get_issue" [("session", "s"), ("query", "q")]
      ≠ BridgedStep.raiseNotConnected := by
  exact ⟨by decide, by decide⟩

/-- C5 amended: `_call_tool_bridged` consults no connection state: for
any value of is_connected it filters the framework kwargs, enqueues the
pending call and suspends on its future; and once the stop signal is set
(after close()) the worker fulfills nothing, so such a call's future is
never fulfilled — the caller blocks instead of failing with
NotConnectedError. -/
theorem C5_amended_always_enqueues (isConnected : Bool) (toolName : String)
    (kwargs : List (String × String)) (session : Session) :
    callToolBridged isConnected toolName kwargs
      = BridgedStep.enqueue ⟨toolName, filterKwargs kwargs⟩ ∧
    fulfilledIdxs (workerTrace session (fun _ => true)
        [⟨toolName, filterKwargs kwargs⟩]) = [] := by
  exact ⟨rfl, rfl⟩

/-- C6 counterexample: when the worker task fails during setup with an
OSError, connect() re-raises that OSError itself — it does not raise a
ConnectionError carrying the cause, so the claim fails as stated. -/
theorem C6_counterexample_raw_exception_not_connection_error :
    (connectModel false
        (WorkerInit.failedDone (PyExc.other "OSError" "transport failed"))).1
      = Except.error (PyExc.other "OSError" "transport failed") ∧
    raisesConnectionError
      (connectModel false
        (WorkerInit.failedDone (PyExc.other "OSError" "transport failed"))).1
      = false := by
  exact ⟨rfl, rfl⟩

/-- C6 amended: when the worker task fails during connection setup,
connect() re-raises the worker's own exception unchanged (or the fixed
RuntimeError when the worker task has not yet finished), and the bridge
is left not connected. -/
theorem C6_amended_connect_reraises_underlying (e : PyExc) :
    connectModel false (WorkerInit.failedDone e) = (Except.error e, false) ∧
    connectModel false (WorkerInit.failedPending e)
      = (Except.error (PyExc.runtimeError "Failed to connect to MCP server"),
         false) := by
  exact ⟨rfl, rfl⟩

/-! The dispatch-workflow claims. -/

/-- C7: whenever the routing oracle's text parses to no valid agent name,
run_parallel_workflow returns the fixed no-routing message, performs no
handler invocation and never calls the synthesis oracle. -/
theorem C7_empty_routing_short_circuits (task rname : String)
    (revents : List RunEvent) (synthesis : Agent)
    (registry : List (String × Agent))
    (h : parseRoutingResponse (runText revents) = []) :
    runParallelWorkflow task ⟨rname, fun _ => .ok revents⟩ synthesis registry
      = .ok ⟨"Orchestrator could not determine which agents to invoke for this task.",
             [], none⟩ := by
  simp [runParallelWorkflow, h]

/-- Closed witness for C7: routing answers with the unknown name
FooAgent, the selection is empty and the dispatch short-circuits. -/
theorem C7_empty_routing_short_circuits_witness :
    runParallelWorkflow "check CI"
        ⟨"Router", fun _ => .ok [⟨"output", some ["FooAgent"]⟩]⟩
        ⟨"Synth", fun _ => .ok []⟩ []
      = .ok ⟨"Orchestrator could not determine which agents to invoke for this task.",
             [], none⟩ :=
  C7_empty_routing_short_circuits "check CI" "Router"
    [⟨"output", some ["FooAgent"]⟩] ⟨"Synth", fun _ => .ok []⟩ [] (by decide)

/-- C9: when routing selects a non-empty list of names but none of them
is registered in the agents dict, run_parallel_workflow returns the fixed
no-valid-agents message without invoking any handler and without calling
the synthesis oracle. -/
theorem C9_no_registered_agents_message (task rname : String)
    (revents : List RunEvent) (synthesis : Agent)
    (registry : List (String × Agent))
    (h1 : parseRoutingResponse (runText revents) ≠ [])
    (h2 : (parseRoutingResponse (runText revents)).filterMap
        (fun n => registry.lookup n) = []) :
    runParallelWorkflow task ⟨rname, fun _ => .ok revents⟩ synthesis registry
      = .ok ⟨"No valid agents available for the selected tasks.", [], none⟩ := by
  have h1' : (parseRoutingResponse (runText revents)).isEmpty = false := by
    simp [List.isEmpty_iff, h1]
  simp [runParallelWorkflow, h1', h2]

/-- Closed witness for C9: routing selects SlackAgent but the registry is
empty, so the dispatch returns the no-valid-agents message. -/
theorem C9_no_registered_agents_message_witness :
    runParallelWorkflow "check CI"
        ⟨"Router", fun _ => .ok [⟨"output", some ["SlackAgent"]⟩]⟩
        ⟨"Synth", fun _ => .ok []⟩ []
      = .ok ⟨"No valid agents available for the selected tasks.", [], none⟩ :=
  C9_no_registered_agents_message "check CI" "Router"
    [⟨"output", some ["SlackAgent"]⟩] ⟨"Synth", fun _ => .ok []⟩ []
    (by decide) rfl

/-- C8 counterexample: the routing text "SlackAgent,SlackAgent" parses to
a selection in which the valid identifier SlackAgent appears twice, not
at most once — the selection is a list, not a set. -/
theorem C8_counterexample_duplicate_selection :
    ¬ ((parseRoutingResponse "SlackAgent,SlackAgent").count "SlackAgent" ≤ 1) := by
  decide

/-- C8 amended: the routing parse preserves duplicate tokens: the text
"SlackAgent,SlackAgent" selects SlackAgent twice, so the registered
handler is invoked once per occurrence and its outcome is embedded in the
synthesis prompt twice. -/
theorem C8_amended_duplicates_preserved (task : String) (ag : Agent) :
    parseRoutingResponse "SlackAgent,SlackAgent" = ["SlackAgent", "SlackAgent"] ∧
    runParallelWorkflow task
        ⟨"R", fun _ => .ok [⟨"output", some ["SlackAgent,SlackAgent"]⟩]⟩
        ⟨"S", fun _ => .ok []⟩ [("SlackAgent", ag)]
      = .ok ⟨"(synthesis produced no output)",
             [invokeAgent ag task, invokeAgent ag task],
             some (buildSynthesisPrompt task
               [invokeAgent ag task, invokeAgent ag task])⟩ := by
  exact ⟨by decide, rfl⟩

/-- C3: a selected handler whose invocation raises is converted into an
outcome whose text is the formatted error description (the failure
marking of `_invoke_agent`); every selected invocation still contributes
its own outcome, in selection order (no sibling is aborted: the
translation of `_invoke_agent` is total, so no exception reaches the
gather), the synthesis oracle is still called over all outcomes, and
run_parallel_workflow returns a text result rather than raising. -/
theorem C3_handler_failure_absorbed (task rname sname : String)
    (revents sevents : List RunEvent) (registry : List (String × Agent))
    (a : Agent) (e : String)
    (hmem : a ∈ (parseRoutingResponse (runText revents)).filterMap
        (fun n => registry.lookup n))
    (hfail : a.run task = .error e) :
    (invokeAgent a task).2 = "(error: " ++ e ++ ")" ∧
    runParallelWorkflow task ⟨rname, fun _ => .ok revents⟩
        ⟨sname, fun _ => .ok sevents⟩ registry
      = .ok ⟨if runText sevents = "" then "(synthesis produced no output)"
               else runText sevents,
             ((parseRoutingResponse (runText revents)).filterMap
               (fun n => registry.lookup n)).map (fun ag => invokeAgent ag task),
             some (buildSynthesisPrompt task
               (((parseRoutingResponse (runText revents)).filterMap
                 (fun n => registry.lookup n)).map
                   (fun ag => invokeAgent ag task)))⟩ := by
  constructor
  · simp [invokeAgent, hfail]
  · have hsel : (parseRoutingResponse (runText revents)).filterMap
        (fun n => registry.lookup n) ≠ [] := List.ne_nil_of_mem hmem
    have hnames : parseRoutingResponse (runText revents) ≠ [] := by
      intro h0
      simp [h0] at hsel
    have h1 : (parseRoutingResponse (runText revents)).isEmpty = false := by
      simp [List.isEmpty_iff, hnames]
    have h2 : ((parseRoutingResponse (runText revents)).filterMap
        (fun n => registry.lookup n)).isEmpty = false := by
      simp [List.isEmpty_iff, hsel]
    simp [runParallelWorkflow, h1, h2]

/-- Closed witness for C3: the single selected handler raises with text
boom; its outcome is the error text, synthesis still runs and its answer
is returned. -/
theorem C3_handler_failure_absorbed_witness :
    (invokeAgent ⟨"SlackAgent", fun _ => .error "boom"⟩ "triage").2
      = "(error: boom)" ∧
    runParallelWorkflow "triage"
        ⟨"R", fun _ => .ok [⟨"output", some ["SlackAgent"]⟩]⟩
        ⟨"S", fun _ => .ok [⟨"output", some ["All good"]⟩]⟩
        [("SlackAgent", ⟨"SlackAgent", fun _ => .error "boom"⟩)]
      = .ok ⟨if runText [⟨"output", some ["All good"]⟩] = ""
               then "(synthesis produced no output)"
               else runText [⟨"output", some ["All good"]⟩],
             ((parseRoutingResponse (runText [⟨"output", some ["SlackAgent"]⟩])).filterMap
               (fun n => ([("SlackAgent", (⟨"SlackAgent", fun _ => .error "boom"⟩ : Agent))]).lookup n)).map
                 (fun ag => invokeAgent ag "triage"),
             some (buildSynthesisPrompt "triage"
               (((parseRoutingResponse (runText [⟨"output", some ["SlackAgent"]⟩])).filterMap
                 (fun n => ([("SlackAgent", (⟨"SlackAgent", fun _ => .error "boom"⟩ : Agent))]).lookup n)).map
                   (fun ag => invokeAgent ag "triage")))⟩ :=
  C3_handler_failure_absorbed "triage" "R" "S"
    [⟨"output", some ["SlackAgent"]⟩] [⟨"output", some ["All good"]⟩]
    [("SlackAgent", ⟨"SlackAgent", fun _ => .error "boom"⟩)]
    ⟨"SlackAgent", fun _ => .error "boom"⟩ "boom"
    (List.Mem.head _) rfl

/-! Helper lemmas about the routing parse and space deletion. -/

theorem dropWhile_pyWhitespace_filter (l : List Char) :
    (l.filter (fun c => c ≠ ' ')).dropWhile pyWhitespace
      = (l.dropWhile pyWhitespace).filter (fun c => c ≠ ' ') := by
  induction l with
  | nil => rfl
  | cons c l ih =>
    simp only [ne_eq, decide_not] at ih ⊢
    by_cases hc : c = ' '
    · subst hc
      simp [List.filter_cons, List.dropWhile_cons, pyWhitespace, ih]
    · by_cases hw : pyWhitespace c = true
      · simp [List.filter_cons, List.dropWhile_cons, hc, hw, ih]
      · simp [List.filter_cons, List.dropWhile_cons, hc, hw]

theorem pyStrip_removeSpaces (l : List Char) :
    pyStrip (removeSpaces l) = removeSpaces (pyStrip l) := by
  simp only [pyStrip, removeSpaces]
  rw [dropWhile_pyWhitespace_filter, ← List.filter_reverse,
    dropWhile_pyWhitespace_filter, ← List.filter_reverse]

theorem removeSpaces_idem (l : List Char) :
    removeSpaces (removeSpaces l) = removeSpaces l := by
  simp [removeSpaces, List.filter_filter]

/-- C10: the routing parse deletes every space character of the whole
text before splitting on commas (parsing is invariant under deleting all
spaces up front), so a valid identifier written with internal or
surrounding spaces still parses to a valid name, while a tab or newline
inside a token survives the deletion and makes that token unrecognized
and dropped. -/
theorem C10_space_deletion_parse :
    (∀ s : String, parseRoutingResponse s
        = parseRoutingResponse (String.mk (s.data.filter (fun c => c ≠ ' ')))) ∧
    parseRoutingResponse "Slack Agent" = ["SlackAgent"] ∧
    parseRoutingResponse " Slack Agent , JiraAgent " = ["SlackAgent", "JiraAgent"] ∧
    parseRoutingResponse "Slack\tAgent" = [] ∧
    parseRoutingResponse "Slack\nAgent" = [] := by
  refine ⟨?_, by decide, by decide, by decide, by decide⟩
  intro s
  have unfold1 : ∀ t : String, parseRoutingResponse t
      = (((((splitComma (removeSpaces (pyStrip t.data))).map pyStrip).filter
            (fun n => n ≠ [])).map (fun l => String.mk l)).filter
              (fun n => VALID_AGENT_NAMES.contains n)) := fun _ => rfl
  have key : removeSpaces (pyStrip
        (String.mk (s.data.filter (fun c => c ≠ ' '))).data)
      = removeSpaces (pyStrip s.data) := by
    show removeSpaces (pyStrip (removeSpaces s.data)) = removeSpaces (pyStrip s.data)
    rw [pyStrip_removeSpaces, removeSpaces_idem]
  rw [unfold1 s, unfold1 (String.mk (s.data.filter (fun c => c ≠ ' '))), key]

/-! Helper lemmas about the gather model. -/

theorem gatherFold_getElem (results : List (String × String)) :
    ∀ (L : List Nat) (init : List (Option (String × String))) (i : Nat),
      (L.foldl (fun slots j => slots.set j results[j]?) init)[i]?
        = if i ∈ L ∧ i < init.length then some results[i]? else init[i]?
  | [], init, i => by simp
  | j :: L, init, i => by
    rw [List.foldl_cons,
      gatherFold_getElem results L (init.set j results[j]?) i, List.length_set]
    by_cases hlt : i < init.length
    · by_cases hiL : i ∈ L
      · simp [hiL, hlt, List.mem_cons]
      · by_cases hij : i = j
        · subst hij
          simp [hiL, hlt, List.getElem?_set, List.mem_cons]
        · simp [hiL, hlt, hij, List.getElem?_set, List.mem_cons, Ne.symm hij]
    · have hle : init.length ≤ i := Nat.le_of_not_lt hlt
      have h1 : (init.set j results[j]?)[i]? = none :=
        List.getElem?_eq_none (by simpa using hle)
      have h2 : init[i]? = none := List.getElem?_eq_none hle
      simp [hlt, h1, h2]

theorem gatherFill_perm (results : List (String × String)) (schedule : List Nat)
    (hperm : schedule.Perm (List.range results.length)) :
    gatherFill results schedule = results.map some := by
  have hmem : ∀ i, i ∈ schedule ↔ i < results.length := fun i => by
    rw [hperm.mem_iff, List.mem_range]
  apply List.ext_getElem?
  intro i
  rw [gatherFill,
    gatherFold_getElem results schedule (List.replicate results.length none) i,
    List.length_replicate]
  by_cases h : i < results.length
  · have hv : results[i]? = some results[i] := List.getElem?_eq_getElem h
    simp [hmem, h, hv, List.getElem?_map]
  · have hle : results.length ≤ i := Nat.le_of_not_lt h
    have h1 : (List.replicate results.length
        (none : Option (String × String)))[i]? = none :=
      List.getElem?_eq_none (by simpa using hle)
    have h2 : (results.map some)[i]? = none :=
      List.getElem?_eq_none (by simpa using hle)
    simp [hmem, h, h1, h2]

theorem length_filterMap_of_isSome {α β : Type} (f : α → Option β) :
    ∀ l : List α, (∀ x ∈ l, (f x).isSome = true) → (l.filterMap f).length = l.length
  | [], _ => rfl
  | x :: l, h => by
    obtain ⟨b, hb⟩ := Option.isSome_iff_exists.mp (h x (List.mem_cons_self _ _))
    simp only [List.filterMap_cons, hb, List.length_cons]
    rw [length_filterMap_of_isSome f l (fun y hy => h y (List.mem_cons_of_mem _ hy))]

/-- C2: when routing selects the registered handler names in a given
order, the (handler name, response text) outcomes are embedded in the
synthesis prompt in exactly that selection order, for every completion
schedule of the concurrent invocations: gather writes each result into
the slot of its own invocation, so the gathered sequence — and hence the
synthesis prompt — is independent of which handler finished first. -/
theorem C2_synthesis_prompt_selection_order (task : String) (names : List String)
    (registry : List (String × Agent)) (schedule : List Nat)
    (hreg : ∀ n ∈ names, (registry.lookup n).isSome = true)
    (hperm : schedule.Perm (List.range
      (names.filterMap (fun n => registry.lookup n)).length)) :
    ((names.filterMap (fun n => registry.lookup n)).length = names.length) ∧
    gatherFill ((names.filterMap (fun n => registry.lookup n)).map
        (fun ag => invokeAgent ag task)) schedule
      = ((names.filterMap (fun n => registry.lookup n)).map
          (fun ag => invokeAgent ag task)).map some ∧
    buildSynthesisPrompt task (collectGather (gatherFill
        ((names.filterMap (fun n => registry.lookup n)).map
          (fun ag => invokeAgent ag task)) schedule))
      = buildSynthesisPrompt task
          ((names.filterMap (fun n => registry.lookup n)).map
            (fun ag => invokeAgent ag task)) := by
  have hfill : gatherFill ((names.filterMap (fun n => registry.lookup n)).map
      (fun ag => invokeAgent ag task)) schedule
      = ((names.filterMap (fun n => registry.lookup n)).map
          (fun ag => invokeAgent ag task)).map some :=
    gatherFill_perm _ schedule (by simpa using hperm)
  refine ⟨length_filterMap_of_isSome _ names hreg, hfill, ?_⟩
  rw [hfill]
  congr 1
  simp [collectGather]

/-- Closed witness for C2: two registered handlers selected in the order
SlackAgent, JiraAgent, with the completion schedule in which the second
invocation finishes first. -/
theorem C2_synthesis_prompt_selection_order_witness :
    ((["SlackAgent", "JiraAgent"].filterMap
        (fun n => demoRegistry.lookup n)).length
      = (["SlackAgent", "JiraAgent"] : List String).length) ∧
    gatherFill ((["SlackAgent", "JiraAgent"].filterMap
        (fun n => demoRegistry.lookup n)).map
          (fun ag => invokeAgent ag "triage")) [1, 0]
      = ((["SlackAgent", "JiraAgent"].filterMap
          (fun n => demoRegistry.lookup n)).map
            (fun ag => invokeAgent ag "triage")).map some ∧
    buildSynthesisPrompt "triage" (collectGather (gatherFill
        ((["SlackAgent", "JiraAgent"].filterMap
          (fun n => demoRegistry.lookup n)).map
            (fun ag => invokeAgent ag "triage")) [1, 0]))
      = buildSynthesisPrompt "triage"
          ((["SlackAgent", "JiraAgent"].filterMap
            (fun n => demoRegistry.lookup n)).map
              (fun ag => invokeAgent ag "triage")) :=
  C2_synthesis_prompt_selection_order "triage" ["SlackAgent", "JiraAgent"]
    demoRegistry [1, 0] (by decide) (by decide)

end MAW
